import Mathlib

/-!
Shallow embedding of the ink ERC-20 ledger from src/lib.rs.

Accounts are opaque comparable identifiers, modelled as Nat.
Balance is the u128 type of the contract, modelled as Nat; the one
place where overflow matters (the addition balance_to + value in
transfer_helper) is reduced modulo 2 ^ 128 explicitly.
The two storage Mappings are modelled as association lists whose
get returns the first matching entry and whose insert overwrites in
place or appends, mirroring ink storage Mapping semantics.
Each operation takes the caller identity explicitly and returns the
Result, the updated contract state, and the list of events emitted
by that call.
-/

namespace Erc

abbrev AccountId := Nat

abbrev Balance := Nat

def U128_MOD : Nat := 2 ^ 128

inductive Error where
  | BalanceTooLow
  | AllowanceTooLow
deriving DecidableEq, Repr

inductive Event where
  | Transfer (src dst : Option AccountId) (value : Balance)
  | Approval (src dst : Option AccountId) (value : Balance)
deriving DecidableEq, Repr

deriving instance DecidableEq for Except

abbrev Mapping (K V : Type) := List (K × V)

def Mapping.get {K V : Type} [DecidableEq K] (m : Mapping K V) (k : K) : Option V :=
  match m with
  | [] => none
  | (k1, v) :: rest => if k1 = k then some v else Mapping.get rest k

def Mapping.insert {K V : Type} [DecidableEq K] (m : Mapping K V) (k : K) (v : V) : Mapping K V :=
  match m with
  | [] => [(k, v)]
  | (k1, v1) :: rest => if k1 = k then (k, v) :: rest else (k1, v1) :: Mapping.insert rest k v

structure Erc20 where
  total_supply : Balance
  balances : Mapping AccountId Balance
  allowances : Mapping (AccountId × AccountId) Balance
deriving DecidableEq, Repr

/-- Constructor: credits the whole supply only at the caller, empty allowances. -/
def Erc20.new (caller : AccountId) (total_supply : Balance) : Erc20 :=
  { total_supply := total_supply
    balances := Mapping.insert [] caller total_supply
    allowances := [] }

/-- balances.get(owner).unwrap_or_default() -/
def balance_of (s : Erc20) (owner : AccountId) : Balance :=
  (Mapping.get s.balances owner).getD 0

/-- allowances.get((owner, spender)).unwrap_or_default(), as read inside transfer_from. -/
def allowance_of (s : Erc20) (owner spender : AccountId) : Balance :=
  (Mapping.get s.allowances (owner, spender)).getD 0

/-- Internal transfer primitive of the contract. Both balances are read
before either write; on success the source entry is written first and the
destination entry second, the addition reduced modulo 2 ^ 128 as u128. -/
def transfer_helper (s : Erc20) (fr dst : AccountId) (value : Balance) :
    Except Error Unit × Erc20 × List Event :=
  let balance_from := balance_of s fr
  let balance_to := balance_of s dst
  if balance_from < value then
    (Except.error Error.BalanceTooLow, s, [])
  else
    let balances1 := Mapping.insert s.balances fr (balance_from - value)
    let balances2 := Mapping.insert balances1 dst ((balance_to + value) % U128_MOD)
    (Except.ok (), { s with balances := balances2 },
      [Event.Transfer (some fr) (some dst) value])

/-- transfer: delegates directly into transfer_helper with the environment caller as source. -/
def transfer (s : Erc20) (caller dst : AccountId) (value : Balance) :
    Except Error Unit × Erc20 × List Event :=
  transfer_helper s caller dst value

/-- transfer_from: checks the (fr, caller) allowance, decrements it, then
delegates into transfer_helper. -/
def transfer_from (s : Erc20) (caller fr dst : AccountId) (value : Balance) :
    Except Error Unit × Erc20 × List Event :=
  let allowed := (Mapping.get s.allowances (fr, caller)).getD 0
  if allowed < value then
    (Except.error Error.AllowanceTooLow, s, [])
  else
    let s1 := { s with allowances := Mapping.insert s.allowances (fr, caller) (allowed - value) }
    transfer_helper s1 fr dst value

/-- approve: unconditionally overwrites the (caller, dst) allowance and
emits an Approval event. -/
def approve (s : Erc20) (caller dst : AccountId) (value : Balance) :
    Except Error Unit × Erc20 × List Event :=
  let s1 := { s with allowances := Mapping.insert s.allowances (caller, dst) value }
  (Except.ok (), s1, [Event.Approval (some caller) (some dst) value])

/-- Sum of all stored balance entries; accounts without an entry hold zero,
so this is the sum over all accounts of balance_of. -/
def sumBalances (s : Erc20) : Nat :=
  (s.balances.map Prod.snd).sum

theorem Mapping.get_insert_self {K V : Type} [DecidableEq K] (m : Mapping K V) (k : K) (v : V) :
    Mapping.get (Mapping.insert m k v) k = some v := by
  induction m with
  | nil => simp [Mapping.insert, Mapping.get]
  | cons p rest ih =>
    obtain ⟨k1, v1⟩ := p
    by_cases h : k1 = k <;> simp [Mapping.insert, Mapping.get, h, ih]

theorem Mapping.get_insert_ne {K V : Type} [DecidableEq K] (m : Mapping K V) (k k2 : K) (v : V)
    (h : k2 ≠ k) : Mapping.get (Mapping.insert m k v) k2 = Mapping.get m k2 := by
  have h3 : k ≠ k2 := Ne.symm h
  induction m with
  | nil => simp [Mapping.insert, Mapping.get, h3]
  | cons p rest ih =>
    obtain ⟨k1, v1⟩ := p
    by_cases h1 : k1 = k
    · subst h1
      simp [Mapping.insert, Mapping.get, h3]
    · simp [Mapping.insert, Mapping.get, h1, ih]

/-- Claim C1: conservation fails on the code. Starting from construction with
supply 100 credited at account 0, the successful self-transfer of 100 by
account 0 leaves the sum of all balances at 200, not at the supply 100: the
destination write of transfer_helper overwrites the source write when the two
accounts coincide, because both balances were read before either write. -/
theorem conservation_broken_by_self_transfer :
    sumBalances (Erc20.new 0 100) = 100 ∧
    (transfer (Erc20.new 0 100) 0 0 100).1 = Except.ok () ∧
    sumBalances (transfer (Erc20.new 0 100) 0 0 100).2.1 = 200 ∧
    (transfer (Erc20.new 0 100) 0 0 100).2.1.total_supply = 100 := by decide

/-- Claim C2: a self-transfer is not a no-op on the code. With balance 100 at
account 0, the self-transfer of 50 succeeds and emits the Transfer event as
claimed, but afterwards balance_of account 0 is 150, not the unchanged 100:
the two writes of transfer_helper are both computed from the pre-transfer
reads, so the second overwrites the first with balance + value. -/
theorem self_transfer_not_noop :
    balance_of (Erc20.new 0 100) 0 = 100 ∧
    (transfer_helper (Erc20.new 0 100) 0 0 50).1 = Except.ok () ∧
    (transfer_helper (Erc20.new 0 100) 0 0 50).2.2
      = [Event.Transfer (some 0) (some 0) 50] ∧
    balance_of (transfer_helper (Erc20.new 0 100) 0 0 50).2.1 0 = 150 := by decide

/-- Claim C4: the addition balance_to + value can overflow the 128-bit
Balance word on a reachable state. Immediately after construction with
supply 2 ^ 127, the self-transfer of the full balance passes the sufficiency
check (2 ^ 127 is not below 2 ^ 127) yet the destination addition reaches
2 ^ 128, one past the u128 maximum; under wrapping semantics the stored
balance becomes 0. The source uses plain, unchecked + on the balances. -/
theorem balance_addition_overflows :
    (transfer (Erc20.new 0 (2 ^ 127)) 0 0 (2 ^ 127)).1 = Except.ok () ∧
    U128_MOD ≤ balance_of (Erc20.new 0 (2 ^ 127)) 0 + 2 ^ 127 ∧
    balance_of (transfer (Erc20.new 0 (2 ^ 127)) 0 0 (2 ^ 127)).2.1 0 = 0 := by
  refine ⟨by decide, by decide, by decide⟩

theorem transfer_helper_insufficient (s : Erc20) (fr dst : AccountId) (value : Balance)
    (h : balance_of s fr < value) :
    transfer_helper s fr dst value = (Except.error Error.BalanceTooLow, s, []) := by
  simp [transfer_helper, h]

/-- Claim C3: with sufficient allowance but insufficient balance,
transfer_from returns BalanceTooLow, leaves every balance entry unchanged,
and still leaves the (fr, caller) allowance decreased by the value: the
decrement written before the balance move is not rolled back. -/
theorem transfer_from_consumes_allowance_on_failure (s : Erc20)
    (caller fr dst : AccountId) (value : Balance)
    (hA : value ≤ allowance_of s fr caller) (hB : balance_of s fr < value) :
    (transfer_from s caller fr dst value).1 = Except.error Error.BalanceTooLow ∧
    (transfer_from s caller fr dst value).2.1.balances = s.balances ∧
    allowance_of (transfer_from s caller fr dst value).2.1 fr caller
      = allowance_of s fr caller - value ∧
    (transfer_from s caller fr dst value).2.2 = [] := by
  have hnot : ¬ ((Mapping.get s.allowances (fr, caller)).getD 0 < value) := not_lt.mpr hA
  have hB2 : (Mapping.get s.balances fr).getD 0 < value := hB
  simp [transfer_from, transfer_helper, balance_of, allowance_of, hnot, hB2,
    Mapping.get_insert_self]

theorem transfer_from_consumes_allowance_on_failure_witness :
    20 ≤ allowance_of (approve (Erc20.new 0 10) 0 1 50).2.1 0 1 ∧
    balance_of (approve (Erc20.new 0 10) 0 1 50).2.1 0 < 20 ∧
    ((transfer_from (approve (Erc20.new 0 10) 0 1 50).2.1 1 0 2 20).1
        = Except.error Error.BalanceTooLow ∧
      (transfer_from (approve (Erc20.new 0 10) 0 1 50).2.1 1 0 2 20).2.1.balances
        = (approve (Erc20.new 0 10) 0 1 50).2.1.balances ∧
      allowance_of (transfer_from (approve (Erc20.new 0 10) 0 1 50).2.1 1 0 2 20).2.1 0 1
        = allowance_of (approve (Erc20.new 0 10) 0 1 50).2.1 0 1 - 20 ∧
      (transfer_from (approve (Erc20.new 0 10) 0 1 50).2.1 1 0 2 20).2.2 = []) :=
  ⟨by decide, by decide,
    transfer_from_consumes_allowance_on_failure (approve (Erc20.new 0 10) 0 1 50).2.1
      1 0 2 20 (by decide) (by decide)⟩

/-- Claim C7: approve always succeeds, overwrites the (owner, spender)
allowance with the given value as an absolute set, emits the matching
Approval event, and never touches the balances; a second approve leaves the
second value regardless of the first. -/
theorem approve_absolute_overwrite (s : Erc20) (owner spender : AccountId)
    (v1 v2 : Balance) :
    (approve s owner spender v2).1 = Except.ok () ∧
    allowance_of (approve s owner spender v2).2.1 owner spender = v2 ∧
    (approve s owner spender v2).2.2
      = [Event.Approval (some owner) (some spender) v2] ∧
    (approve s owner spender v2).2.1.balances = s.balances ∧
    allowance_of (approve (approve s owner spender v1).2.1 owner spender v2).2.1
      owner spender = v2 := by
  refine ⟨rfl, ?_, rfl, rfl, ?_⟩ <;>
    simp [approve, allowance_of, Mapping.get_insert_self]

/-- Claim C5: when the source balance is below the requested value, the
transfer primitive, and hence transfer, fail with BalanceTooLow, return the
state completely unchanged (no balance or allowance entry is mutated), and
emit no event. -/
theorem transfer_balance_too_low (s : Erc20) (fr dst : AccountId) (value : Balance)
    (h : balance_of s fr < value) :
    transfer_helper s fr dst value = (Except.error Error.BalanceTooLow, s, []) ∧
    transfer s fr dst value = (Except.error Error.BalanceTooLow, s, []) := by
  constructor <;> simp [transfer, transfer_helper, h]

theorem transfer_balance_too_low_witness :
    balance_of (Erc20.new 0 100) 1 < 7 ∧
    transfer_helper (Erc20.new 0 100) 1 2 7
      = (Except.error Error.BalanceTooLow, Erc20.new 0 100, []) ∧
    transfer (Erc20.new 0 100) 1 2 7
      = (Except.error Error.BalanceTooLow, Erc20.new 0 100, []) :=
  ⟨by decide, transfer_balance_too_low (Erc20.new 0 100) 1 2 7 (by decide)⟩

/-- Claim C6: when the (fr, caller) allowance is below the requested value,
transfer_from fails with AllowanceTooLow and returns the state completely
unchanged: every balance entry and every allowance entry, including the
(fr, caller) one, is untouched, and no event is emitted. -/
theorem transfer_from_allowance_too_low (s : Erc20) (caller fr dst : AccountId)
    (value : Balance) (h : allowance_of s fr caller < value) :
    transfer_from s caller fr dst value = (Except.error Error.AllowanceTooLow, s, []) := by
  simp only [transfer_from]
  rw [if_pos]
  exact h

theorem transfer_from_allowance_too_low_witness :
    allowance_of (Erc20.new 0 100) 0 1 < 5 ∧
    transfer_from (Erc20.new 0 100) 1 0 2 5
      = (Except.error Error.AllowanceTooLow, Erc20.new 0 100, []) :=
  ⟨by decide, transfer_from_allowance_too_low (Erc20.new 0 100) 1 0 2 5 (by decide)⟩

/-- Claim C8 counterexample: the claim quantifies over every destination,
including the sender itself. With balance 100 at account 0, the transfer of
the full balance by account 0 with destination account 0 succeeds but leaves
balance_of account 0 at 200, not 0, refuting the claim at this input. -/
theorem transfer_full_balance_self_cex :
    balance_of (Erc20.new 0 100) 0 = 100 ∧
    (transfer (Erc20.new 0 100) 0 0 100).1 = Except.ok () ∧
    balance_of (transfer (Erc20.new 0 100) 0 0 100).2.1 0 ≠ 0 := by decide

/-- Claim C8 amended: for every destination distinct from the sender, a
transfer of the full sender balance succeeds and leaves the sender balance
at 0, while a transfer of the balance plus one fails with BalanceTooLow and
leaves both the sender and destination balances unchanged. -/
theorem transfer_boundary (s : Erc20) (sender dst : AccountId) (h : dst ≠ sender) :
    (transfer s sender dst (balance_of s sender)).1 = Except.ok () ∧
    balance_of (transfer s sender dst (balance_of s sender)).2.1 sender = 0 ∧
    transfer s sender dst (balance_of s sender + 1)
      = (Except.error Error.BalanceTooLow, s, []) ∧
    balance_of (transfer s sender dst (balance_of s sender + 1)).2.1 sender
      = balance_of s sender ∧
    balance_of (transfer s sender dst (balance_of s sender + 1)).2.1 dst
      = balance_of s dst := by
  have herr : transfer_helper s sender dst (balance_of s sender + 1)
      = (Except.error Error.BalanceTooLow, s, []) :=
    transfer_helper_insufficient s sender dst _ (Nat.lt_succ_self _)
  have hok : ¬ (balance_of s sender < balance_of s sender) := lt_irrefl _
  refine ⟨?_, ?_, herr, ?_, ?_⟩
  · simp [transfer, transfer_helper, hok]
  · simp [transfer, transfer_helper, hok, balance_of,
      Mapping.get_insert_ne _ dst sender _ (Ne.symm h), Mapping.get_insert_self]
  · show balance_of (transfer_helper s sender dst (balance_of s sender + 1)).2.1 sender
      = balance_of s sender
    rw [herr]
  · show balance_of (transfer_helper s sender dst (balance_of s sender + 1)).2.1 dst
      = balance_of s dst
    rw [herr]

theorem transfer_boundary_witness :
    ((1 : AccountId) ≠ 0) ∧
    ((transfer (Erc20.new 0 100) 0 1 (balance_of (Erc20.new 0 100) 0)).1
        = Except.ok () ∧
      balance_of (transfer (Erc20.new 0 100) 0 1
        (balance_of (Erc20.new 0 100) 0)).2.1 0 = 0 ∧
      transfer (Erc20.new 0 100) 0 1 (balance_of (Erc20.new 0 100) 0 + 1)
        = (Except.error Error.BalanceTooLow, Erc20.new 0 100, []) ∧
      balance_of (transfer (Erc20.new 0 100) 0 1
        (balance_of (Erc20.new 0 100) 0 + 1)).2.1 0 = balance_of (Erc20.new 0 100) 0 ∧
      balance_of (transfer (Erc20.new 0 100) 0 1
        (balance_of (Erc20.new 0 100) 0 + 1)).2.1 1 = balance_of (Erc20.new 0 100) 1) :=
  ⟨by decide, transfer_boundary (Erc20.new 0 100) 0 1 (by decide)⟩

/-- Claim C9: balance_of returns the stored balances entry when one is
present and zero when none is; in this embedding it is a pure function of
the state with no error outcome, matching the source accessor that maps the
optional storage read through unwrap_or_default. -/
theorem balance_of_entry_or_zero (s : Erc20) (a : AccountId) (v : Balance) :
    (Mapping.get s.balances a = some v → balance_of s a = v) ∧
    (Mapping.get s.balances a = none → balance_of s a = 0) := by
  constructor <;> intro h <;> simp [balance_of, h]

theorem balance_of_entry_or_zero_witness :
    Mapping.get (Erc20.new 0 100).balances 0 = some 100 ∧
    balance_of (Erc20.new 0 100) 0 = 100 ∧
    Mapping.get (Erc20.new 0 100).balances 1 = none ∧
    balance_of (Erc20.new 0 100) 1 = 0 :=
  ⟨by decide, (balance_of_entry_or_zero (Erc20.new 0 100) 0 100).1 (by decide),
    by decide, (balance_of_entry_or_zero (Erc20.new 0 100) 1 0).2 (by decide)⟩

/-- Claim C10: zero-value movements always succeed. A transfer of 0 returns
success, emits a Transfer event carrying value 0, and writes explicit
entries for both accounts (zero entries when both accounts were previously
absent); and transfer_from of 0 succeeds for any spender, even one for whom
no approve was ever issued, since the absent allowance reads as zero and
zero is not below zero. -/
theorem zero_value_moves_succeed (s : Erc20) (caller dst fr spender : AccountId) :
    (transfer s caller dst 0).1 = Except.ok () ∧
    (transfer s caller dst 0).2.2 = [Event.Transfer (some caller) (some dst) 0] ∧
    (Mapping.get (transfer s caller dst 0).2.1.balances caller).isSome = true ∧
    (Mapping.get (transfer s caller dst 0).2.1.balances dst).isSome = true ∧
    (Mapping.get s.balances caller = none → Mapping.get s.balances dst = none →
      Mapping.get (transfer s caller dst 0).2.1.balances caller = some 0 ∧
      Mapping.get (transfer s caller dst 0).2.1.balances dst = some 0) ∧
    (transfer_from s spender fr dst 0).1 = Except.ok () := by
  refine ⟨?_, ?_, ?_, ?_, ?_, ?_⟩
  · simp [transfer, transfer_helper, Nat.not_lt_zero]
  · simp [transfer, transfer_helper, Nat.not_lt_zero]
  · by_cases hcd : caller = dst
    · subst hcd
      simp [transfer, transfer_helper, Nat.not_lt_zero, Mapping.get_insert_self]
    · simp [transfer, transfer_helper, Nat.not_lt_zero,
        Mapping.get_insert_ne _ dst caller _ hcd, Mapping.get_insert_self]
  · simp [transfer, transfer_helper, Nat.not_lt_zero, Mapping.get_insert_self]
  · intro h1 h2
    constructor
    · by_cases hcd : caller = dst
      · subst hcd
        simp [transfer, transfer_helper, Nat.not_lt_zero, h1, balance_of,
          Mapping.get_insert_self]
      · simp [transfer, transfer_helper, Nat.not_lt_zero, h1, h2, balance_of,
          Mapping.get_insert_ne _ dst caller _ hcd, Mapping.get_insert_self]
    · simp [transfer, transfer_helper, Nat.not_lt_zero, h1, h2, balance_of,
        Mapping.get_insert_self]
  · simp [transfer_from, transfer_helper, Nat.not_lt_zero]

theorem zero_value_moves_succeed_witness :
    (transfer (Erc20.new 5 100) 0 1 0).1 = Except.ok () ∧
    Mapping.get (transfer (Erc20.new 5 100) 0 1 0).2.1.balances 0 = some 0 ∧
    Mapping.get (transfer (Erc20.new 5 100) 0 1 0).2.1.balances 1 = some 0 ∧
    (transfer_from (Erc20.new 5 100) 2 3 1 0).1 = Except.ok () := by
  have h := zero_value_moves_succeed (Erc20.new 5 100) 0 1 3 2
  exact ⟨h.1, (h.2.2.2.2.1 (by decide) (by decide)).1,
    (h.2.2.2.2.1 (by decide) (by decide)).2, h.2.2.2.2.2⟩

end Erc
